import Mathlib

/-!
Verification of `sgl-router/py_src/sglang_router/version.py`.

The module resolves package metadata (name, version) from a chain of
unreliable sources — the `pyproject.toml` manifest, installed-package
metadata, and git subprocesses — falling back to hard-coded defaults.

We model the external world (filesystem, TOML parser availability and
result, `importlib.metadata` outcomes, subprocess outcomes) as explicit
parameters, and translate each Python function into a total Lean
function of that environment.
-/

namespace SglangVersion

/-- A TOML value as produced by the parser (`tomllib` / `tomli` / `toml`).
TOML has no null, so a present key always maps to a value. -/
inductive TomlValue where
  | str (s : String)
  | int (n : Int)
  | bool (b : Bool)
  | list (xs : List TomlValue)
  | table (kvs : List (String × TomlValue))
deriving Repr

mutual
/-- Python `repr` of a parsed TOML value (approximate: string escaping
inside `repr` of a `str` is not modelled, only the surrounding quotes). -/
def pyRepr : TomlValue → String
  | .str s => "\x27" ++ s ++ "\x27"
  | .int n => toString n
  | .bool b => if b then "True" else "False"
  | .list xs => "[" ++ pyReprList xs ++ "]"
  | .table kvs => "\x7b" ++ pyReprTable kvs ++ "\x7d"

/-- `repr` of the comma-separated elements of a Python list. -/
def pyReprList : List TomlValue → String
  | [] => ""
  | [x] => pyRepr x
  | x :: xs => pyRepr x ++ ", " ++ pyReprList xs

/-- `repr` of the comma-separated entries of a Python dict. -/
def pyReprTable : List (String × TomlValue) → String
  | [] => ""
  | [(k, v)] => "\x27" ++ k ++ "\x27: " ++ pyRepr v
  | (k, v) :: kvs => "\x27" ++ k ++ "\x27: " ++ pyRepr v ++ ", " ++ pyReprTable kvs
end

/-- Python `str(value)` applied to a parsed TOML value: the identity on
strings, `repr`-rendering on every other type. -/
def pyStr : TomlValue → String
  | .str s => s
  | v => pyRepr v

/-- Which TOML parser the fallback import chain in
`_read_field_from_pyproject` ends up using: `tomllib` when
`sys.version_info >= (3, 11)`, else `tomli` when importable, else `toml`
when importable, else none (both imports raise `ImportError`). -/
inductive ParserChoice where
  | tomllib
  | tomli
  | toml
  | unavailable
deriving Repr, DecidableEq

/-- External state consulted by `_read_field_from_pyproject`: whether
`pyproject.toml` exists at the derived path, which parser the import
chain yields, and the outcome of opening+parsing the file (`Except.error`
for any raised exception, `Except.ok` for the parsed top-level dict). -/
structure ManifestEnv where
  pyprojectExists : Bool
  parser : ParserChoice
  parseResult : Except Unit (List (String × TomlValue))
deriving Repr

/-- `data.get("project", {})` followed by `.get(field)` on the result:
returns `Except.error ()` when the `"project"` value is not a dict (the
`.get` attribute access raises, caught by the enclosing handler). -/
def projectFieldLookup (data : List (String × TomlValue)) (field : String) :
    Except Unit (Option TomlValue) :=
  match (data.lookup "project").getD (.table []) with
  | .table proj => .ok (proj.lookup field)
  | _ => .error ()

/-- `_read_field_from_pyproject(field)`: `None` when the file is absent;
otherwise parse under a broad exception handler and return
`str(project[field])` when present, `None` when the field is absent, the
parse raised, or no TOML parser is importable. -/
def _read_field_from_pyproject (env : ManifestEnv) (field : String) :
    Option String :=
  if !env.pyprojectExists then
    none
  else
    match env.parser with
    | .unavailable => none
    | _ =>
      match env.parseResult with
      | .error _ => none
      | .ok data =>
        match projectFieldLookup data field with
        | .error _ => none
        | .ok (some v) => some (pyStr v)
        | .ok none => none

/-- Python truthiness of an `Optional[str]`: `None` and `""` are falsy. -/
def truthyOpt : Option String → Bool
  | some s => !s.isEmpty
  | none => false

/-- Outcome of `importlib.metadata.version("sglang-router")`: either the
call raises (package not installed, import failure, ...) or it returns a
string. -/
inductive PkgLookup where
  | raises
  | ok (s : String)
deriving Repr, DecidableEq

/-- Outcome of `importlib.metadata.metadata("sglang-router")`: the call
raises, or returns a message object with a given truthiness whose
`.get("Name", default)` yields `nameHeader` when present. -/
inductive MetaObj where
  | raises
  | ok (truthy : Bool) (nameHeader : Option String)
deriving Repr, DecidableEq

/-- The tail of `_get_version_from_pyproject` after the manifest read
fails: the guarded `importlib.metadata` lookup, then the hard-coded
`"0.2.2"` default. -/
def versionFallback (ge38 : Bool) (pkg : PkgLookup) : String :=
  if ge38 then
    match pkg with
    | .ok s => s
    | .raises => "0.2.2"
  else "0.2.2"

/-- `_get_version_from_pyproject()`: return the manifest `version` field
when truthy, else fall back to installed-package metadata, else `"0.2.2"`. -/
def _get_version_from_pyproject (env : ManifestEnv) (ge38 : Bool)
    (pkg : PkgLookup) : String :=
  let version := _read_field_from_pyproject env "version"
  if truthyOpt version then version.getD "" else versionFallback ge38 pkg

/-- The tail of `_get_project_name` after the manifest read fails: the
guarded `importlib.metadata` lookup (`meta.get("Name", "sglang-router")`
when `meta` is truthy), then the hard-coded `"sglang-router"` default. -/
def nameFallback (ge38 : Bool) (meta : MetaObj) : String :=
  if ge38 then
    match meta with
    | .raises => "sglang-router"
    | .ok truthy nameHeader =>
      if truthy then nameHeader.getD "sglang-router" else "sglang-router"
  else "sglang-router"

/-- `_get_project_name()`: return the manifest `name` field when truthy,
else fall back to installed-package metadata, else `"sglang-router"`. -/
def _get_project_name (env : ManifestEnv) (ge38 : Bool) (meta : MetaObj) :
    String :=
  let name := _read_field_from_pyproject env "name"
  if truthyOpt name then name.getD "" else nameFallback ge38 meta

/-- `get_version()`: version number only. -/
def get_version (env : ManifestEnv) (ge38 : Bool) (pkg : PkgLookup) : String :=
  _get_version_from_pyproject env ge38 pkg

/-- A `subprocess.run(argv, capture_output=True, text=True, timeout=t,
check=False)` call site: the fixed argument vector and the timeout in
seconds. -/
structure SubprocCall where
  argv : List String
  timeoutSec : Nat
deriving Repr, DecidableEq

/-- External behaviour of the spawned process: it runs for `duration`
seconds and then exits with `rc`, writing `out` to standard output; or
spawning itself fails with an OS error (`git` missing, ...). -/
inductive ProcBehavior where
  | runsFor (duration : Nat) (rc : Int) (out : String)
  | spawnError
deriving Repr, DecidableEq

/-- Result of the `subprocess.run` call as seen by the caller: either an
exception (`TimeoutExpired` when the process outlives the timeout, or
the spawn error) or a completed process with its exit status and
captured standard output. -/
inductive SubprocX where
  | raises
  | completed (rc : Int) (out : String)
deriving Repr, DecidableEq

/-- Semantics of `subprocess.run` with `check=False`: raises when
spawning fails or the process exceeds the timeout, otherwise returns the
completed process. -/
def runSubprocess (c : SubprocCall) (b : ProcBehavior) : SubprocX :=
  match b with
  | .spawnError => .raises
  | .runsFor d rc out =>
    if c.timeoutSec < d then .raises else .completed rc out

/-- The call site inside `_get_git_branch`. -/
def gitBranchCall : SubprocCall :=
  ⟨["git", "rev-parse", "--abbrev-ref", "HEAD"], 5⟩

/-- The call site inside `_get_git_commit`. -/
def gitCommitCall : SubprocCall :=
  ⟨["git", "rev-parse", "--short", "HEAD"], 5⟩

/-- The call site inside `_get_git_status`. -/
def gitStatusCall : SubprocCall :=
  ⟨["git", "status", "--porcelain"], 5⟩

/-- `_get_git_branch()`: run `git rev-parse --abbrev-ref HEAD` under a
broad exception handler; on exit status 0 return the stripped standard
output, otherwise `None`. -/
def _get_git_branch (b : ProcBehavior) : Option String :=
  match runSubprocess gitBranchCall b with
  | .raises => none
  | .completed rc out => if rc = 0 then some out.trim else none

/-- `_get_git_commit()`: run `git rev-parse --short HEAD` under a broad
exception handler; on exit status 0 return the stripped standard output,
otherwise `None`. -/
def _get_git_commit (b : ProcBehavior) : Option String :=
  match runSubprocess gitCommitCall b with
  | .raises => none
  | .completed rc out => if rc = 0 then some out.trim else none

/-- `_get_git_status()`: run `git status --porcelain` under a broad
exception handler; on exit status 0 return `"dirty"` when the stripped
output is non-empty and `"clean"` when it is empty, otherwise `None`. -/
def _get_git_status (b : ProcBehavior) : Option String :=
  match runSubprocess gitStatusCall b with
  | .raises => none
  | .completed rc out =>
    if rc = 0 then
      if !out.trim.isEmpty then some "dirty" else some "clean"
    else none

/-- Python `x or default` where `x : Optional[str]`: `None` and the empty
string are falsy and yield `default`. -/
def pyOr (x : Option String) (default : String) : String :=
  match x with
  | some s => if s.isEmpty then default else s
  | none => default

/-- `_get_build_time()`: both the try branch and the except branch format
the current UTC time the same way; the formatted timestamp is an input. -/
def _get_build_time (nowFormatted : String) : String :=
  nowFormatted

/-- `_get_python_version()`: `f"{major}.{minor}.{micro}"` from
`sys.version_info`. -/
def _get_python_version (major minor micro : Nat) : String :=
  toString major ++ "." ++ toString minor ++ "." ++ toString micro

/-- Outcome of `import sglang_router`: the import raises, or succeeds
yielding a module for which `hasattr(module, "__file__")` is given. -/
inductive ImportOutcome where
  | raises
  | ok (hasFileAttr : Bool)
deriving Repr, DecidableEq

/-- `_get_build_mode()`: `"development"` when `sglang_router` imports and
has a `__file__` attribute, `"production"` when it imports without one,
`"unknown"` when the import raises. -/
def _get_build_mode (imp : ImportOutcome) : String :=
  match imp with
  | .raises => "unknown"
  | .ok hasFileAttr => if hasFileAttr then "development" else "production"

/-- `_get_platform()`: `platform.platform()` is an external input. -/
def _get_platform (platformInfo : String) : String :=
  platformInfo

/-- All external state consulted by `get_version_string`. -/
structure RuntimeEnv where
  manifest : ManifestEnv
  ge38 : Bool
  pkg : PkgLookup
  meta : MetaObj
  nowFormatted : String
  branchProc : ProcBehavior
  commitProc : ProcBehavior
  statusProc : ProcBehavior
  pyMajor : Nat
  pyMinor : Nat
  pyMicro : Nat
  buildModeImport : ImportOutcome
  platformInfo : String
  rustExtImports : Bool

/-- `get_version_string()`: the formatted multi-line summary. -/
def get_version_string (e : RuntimeEnv) : String :=
  let project_name := _get_project_name e.manifest e.ge38 e.meta
  let version := _get_version_from_pyproject e.manifest e.ge38 e.pkg
  let build_time := _get_build_time e.nowFormatted
  let git_branch := pyOr (_get_git_branch e.branchProc) "unknown"
  let git_commit := pyOr (_get_git_commit e.commitProc) "unknown"
  let git_status := pyOr (_get_git_status e.statusProc) "unknown"
  let python_version := _get_python_version e.pyMajor e.pyMinor e.pyMicro
  let build_mode := _get_build_mode e.buildModeImport
  let platform_info := _get_platform e.platformInfo
  let rustc_version :=
    if e.rustExtImports then "Available (version info from extension)"
    else "N/A (Rust extension not available)"
  let cargo_version := "N/A"
  project_name ++ " " ++ version ++ "\n\n" ++
    "Build Information:\n" ++
    "  Build Time: " ++ build_time ++ "\n" ++
    "  Build Mode: " ++ build_mode ++ "\n" ++
    "  Platform: " ++ platform_info ++ "\n\n" ++
    "Version Control:\n" ++
    "  Git Branch: " ++ git_branch ++ "\n" ++
    "  Git Commit: " ++ git_commit ++ "\n" ++
    "  Git Status: " ++ git_status ++ "\n\n" ++
    "Runtime:\n" ++
    "  Python: " ++ python_version ++ "\n" ++
    "  Rustc: " ++ rustc_version ++ "\n" ++
    "  Cargo: " ++ cargo_version

/-- `get_short_version_string()`: the single-line summary. -/
def get_short_version_string (e : RuntimeEnv) : String :=
  let project_name := _get_project_name e.manifest e.ge38 e.meta
  let version := _get_version_from_pyproject e.manifest e.ge38 e.pkg
  let git_commit := pyOr (_get_git_commit e.commitProc) "unknown"
  project_name ++ " version " ++ version ++ ", build " ++ git_commit

/-- `get_version_string` with the rendered git-status field abstracted
out as a parameter, to state which values that field can take. -/
def get_version_string_with (e : RuntimeEnv) (git_status : String) : String :=
  let project_name := _get_project_name e.manifest e.ge38 e.meta
  let version := _get_version_from_pyproject e.manifest e.ge38 e.pkg
  let build_time := _get_build_time e.nowFormatted
  let git_branch := pyOr (_get_git_branch e.branchProc) "unknown"
  let git_commit := pyOr (_get_git_commit e.commitProc) "unknown"
  let python_version := _get_python_version e.pyMajor e.pyMinor e.pyMicro
  let build_mode := _get_build_mode e.buildModeImport
  let platform_info := _get_platform e.platformInfo
  let rustc_version :=
    if e.rustExtImports then "Available (version info from extension)"
    else "N/A (Rust extension not available)"
  let cargo_version := "N/A"
  project_name ++ " " ++ version ++ "\n\n" ++
    "Build Information:\n" ++
    "  Build Time: " ++ build_time ++ "\n" ++
    "  Build Mode: " ++ build_mode ++ "\n" ++
    "  Platform: " ++ platform_info ++ "\n\n" ++
    "Version Control:\n" ++
    "  Git Branch: " ++ git_branch ++ "\n" ++
    "  Git Commit: " ++ git_commit ++ "\n" ++
    "  Git Status: " ++ git_status ++ "\n\n" ++
    "Runtime:\n" ++
    "  Python: " ++ python_version ++ "\n" ++
    "  Rustc: " ++ rustc_version ++ "\n" ++
    "  Cargo: " ++ cargo_version

/-! ### Concrete environments used by witnesses and counterexamples -/

/-- Environment in which `pyproject.toml` does not exist. -/
def noManifestEnv : ManifestEnv :=
  ⟨false, .tomllib, .error ()⟩

/-- Environment in which the manifest parses and its project table holds
empty `version` and `name` fields. -/
def emptyFieldsEnv : ManifestEnv :=
  ⟨true, .tomllib,
    .ok [("project", .table [("version", .str ""), ("name", .str "")])]⟩

/-- Environment in which the manifest parses with `version = "1.4.0"` and
`name = "sglang-router"`. -/
def manifest140Env : ManifestEnv :=
  ⟨true, .tomllib,
    .ok [("project",
      .table [("version", .str "1.4.0"), ("name", .str "sglang-router")])]⟩

/-! ### Helper lemmas -/

/-- When the manifest read yields a truthy (non-empty) version string, the
version resolver returns it unchanged. -/
theorem version_of_truthy_manifest (env : ManifestEnv) (ge38 : Bool)
    (pkg : PkgLookup) (v : String)
    (hv : _read_field_from_pyproject env "version" = some v) (hv2 : v ≠ "") :
    _get_version_from_pyproject env ge38 pkg = v := by
  unfold _get_version_from_pyproject
  rw [hv]
  simp [truthyOpt, String.isEmpty_iff, hv2]

/-- When the manifest read yields a truthy (non-empty) name string, the
name resolver returns it unchanged. -/
theorem name_of_truthy_manifest (env : ManifestEnv) (ge38 : Bool)
    (meta : MetaObj) (n : String)
    (hn : _read_field_from_pyproject env "name" = some n) (hn2 : n ≠ "") :
    _get_project_name env ge38 meta = n := by
  unfold _get_project_name
  rw [hn]
  simp [truthyOpt, String.isEmpty_iff, hn2]

/-- The hard-coded version default is returned whenever the metadata
lookup raises, for either interpreter generation. -/
theorem versionFallback_raises (ge38 : Bool) :
    versionFallback ge38 PkgLookup.raises = "0.2.2" := by
  cases ge38 <;> rfl

/-- The hard-coded name default is returned whenever the metadata lookup
raises, for either interpreter generation. -/
theorem nameFallback_raises (ge38 : Bool) :
    nameFallback ge38 MetaObj.raises = "sglang-router" := by
  cases ge38 <;> rfl

/-! ### Claims -/

/-- C1: resolution is total and infallible. For every state of the
external sources — manifest present, absent or malformed, metadata
lookups succeeding or raising — `get_version`,
`_get_version_from_pyproject` and `_get_project_name` return a string,
and a strategy's exception (modelled by `Except.error`, `PkgLookup.raises`
and `MetaObj.raises` environments, over which the statement quantifies)
never propagates: the functions are total into `String`. -/
theorem resolution_total (env : ManifestEnv) (ge38 : Bool) (pkg : PkgLookup)
    (meta : MetaObj) :
    ∃ v n : String, _get_version_from_pyproject env ge38 pkg = v ∧
      _get_project_name env ge38 meta = n ∧ get_version env ge38 pkg = v :=
  ⟨_, _, rfl, rfl, rfl⟩

/-- C2 counterexample: the claim that `get_version` never returns the
empty string when a strategy yields the empty string is false — with the
manifest absent, an installed-package metadata lookup that yields `""`
makes `get_version` return `""`, because that strategy's result is
returned without an emptiness check. -/
theorem empty_metadata_value_returned :
    _read_field_from_pyproject noManifestEnv "version" = none ∧
    get_version noManifestEnv true (PkgLookup.ok "") = "" :=
  ⟨rfl, rfl⟩

/-- C2 amended: an empty string from the manifest-read strategy counts as
failure and falls through to the rest of the chain, for both the version
and the name field; the installed-package metadata strategy's result,
however, is returned without an emptiness check, so `get_version` can
return the empty string when that lookup yields it. -/
theorem manifest_empty_falls_through (env : ManifestEnv) (ge38 : Bool)
    (pkg : PkgLookup) (meta : MetaObj)
    (hv : _read_field_from_pyproject env "version" = some "")
    (hn : _read_field_from_pyproject env "name" = some "") :
    _get_version_from_pyproject env ge38 pkg = versionFallback ge38 pkg ∧
    _get_project_name env ge38 meta = nameFallback ge38 meta ∧
    _get_version_from_pyproject env true (PkgLookup.ok "") = "" := by
  refine ⟨?_, ?_, ?_⟩
  · unfold _get_version_from_pyproject
    dsimp only
    rw [hv]
    rfl
  · unfold _get_project_name
    dsimp only
    rw [hn]
    rfl
  · unfold _get_version_from_pyproject
    dsimp only
    rw [hv]
    rfl

/-- C2 witness: in the environment whose manifest has empty `version` and
`name` fields, both resolvers fall through to their fallback chains. -/
theorem manifest_empty_falls_through_witness :
    _read_field_from_pyproject emptyFieldsEnv "version" = some "" ∧
    _read_field_from_pyproject emptyFieldsEnv "name" = some "" ∧
    _get_version_from_pyproject emptyFieldsEnv true (PkgLookup.ok "2.0.1") =
      versionFallback true (PkgLookup.ok "2.0.1") ∧
    _get_project_name emptyFieldsEnv true MetaObj.raises =
      nameFallback true MetaObj.raises :=
  ⟨rfl, rfl,
    (manifest_empty_falls_through emptyFieldsEnv true (PkgLookup.ok "2.0.1")
      MetaObj.raises rfl rfl).1,
    (manifest_empty_falls_through emptyFieldsEnv true (PkgLookup.ok "2.0.1")
      MetaObj.raises rfl rfl).2.1⟩

/-- C3: short-circuit on first success. When the manifest read yields a
non-empty string for the field, the resolver returns exactly that string,
and the result does not depend on the later installed-package metadata
strategy (quantified over two arbitrary metadata outcomes), so that
strategy is never consulted; in particular `version = "1.4.0"` in the
manifest makes `get_version` return `"1.4.0"`. -/
theorem manifest_short_circuit (env : ManifestEnv) (ge38 : Bool)
    (pkg pkg2 : PkgLookup) (meta meta2 : MetaObj) (v n : String)
    (hv : _read_field_from_pyproject env "version" = some v) (hv2 : v ≠ "")
    (hn : _read_field_from_pyproject env "name" = some n) (hn2 : n ≠ "") :
    _get_version_from_pyproject env ge38 pkg = v ∧
    get_version env ge38 pkg = v ∧
    _get_version_from_pyproject env ge38 pkg =
      _get_version_from_pyproject env ge38 pkg2 ∧
    _get_project_name env ge38 meta = n ∧
    _get_project_name env ge38 meta = _get_project_name env ge38 meta2 := by
  have h1 := version_of_truthy_manifest env ge38 pkg v hv hv2
  have h2 := version_of_truthy_manifest env ge38 pkg2 v hv hv2
  have h3 := name_of_truthy_manifest env ge38 meta n hn hn2
  have h4 := name_of_truthy_manifest env ge38 meta2 n hn hn2
  exact ⟨h1, h1, h1.trans h2.symm, h3, h3.trans h4.symm⟩

/-- C3 witness: with `version = "1.4.0"` in the manifest and the
installed-package metadata absent (raising), `get_version` returns
`"1.4.0"`, and the result is the same against a metadata lookup that
would report `"9.9.9"`. -/
theorem manifest_short_circuit_witness :
    _read_field_from_pyproject manifest140Env "version" = some "1.4.0" ∧
    get_version manifest140Env true PkgLookup.raises = "1.4.0" ∧
    _get_version_from_pyproject manifest140Env true PkgLookup.raises =
      _get_version_from_pyproject manifest140Env true (PkgLookup.ok "9.9.9") ∧
    _get_project_name manifest140Env true MetaObj.raises = "sglang-router" :=
  ⟨rfl,
    (manifest_short_circuit manifest140Env true PkgLookup.raises
      (PkgLookup.ok "9.9.9") MetaObj.raises (MetaObj.ok true (some "x"))
      "1.4.0" "sglang-router" rfl (by decide) rfl (by decide)).2.1,
    (manifest_short_circuit manifest140Env true PkgLookup.raises
      (PkgLookup.ok "9.9.9") MetaObj.raises (MetaObj.ok true (some "x"))
      "1.4.0" "sglang-router" rfl (by decide) rfl (by decide)).2.2.1,
    (manifest_short_circuit manifest140Env true PkgLookup.raises
      (PkgLookup.ok "9.9.9") MetaObj.raises (MetaObj.ok true (some "x"))
      "1.4.0" "sglang-router" rfl (by decide) rfl (by decide)).2.2.2.1⟩

/-- C4: all-strategies-fail default. When the manifest read yields
nothing truthy for `version` and `name` and the installed-package
metadata lookups raise, `_get_version_from_pyproject` returns `"0.2.2"`
and `_get_project_name` returns `"sglang-router"`. -/
theorem all_strategies_fail_default (env : ManifestEnv) (ge38 : Bool)
    (hv : truthyOpt (_read_field_from_pyproject env "version") = false)
    (hn : truthyOpt (_read_field_from_pyproject env "name") = false) :
    _get_version_from_pyproject env ge38 PkgLookup.raises = "0.2.2" ∧
    get_version env ge38 PkgLookup.raises = "0.2.2" ∧
    _get_project_name env ge38 MetaObj.raises = "sglang-router" := by
  have h1 : _get_version_from_pyproject env ge38 PkgLookup.raises = "0.2.2" := by
    unfold _get_version_from_pyproject
    dsimp only
    rw [hv]
    simp [versionFallback_raises]
  have h2 : _get_project_name env ge38 MetaObj.raises = "sglang-router" := by
    unfold _get_project_name
    dsimp only
    rw [hn]
    simp [nameFallback_raises]
  exact ⟨h1, h1, h2⟩

/-- C4 witness: with `pyproject.toml` absent and the metadata lookups
raising, the resolvers return their hard-coded defaults. -/
theorem all_strategies_fail_default_witness :
    truthyOpt (_read_field_from_pyproject noManifestEnv "version") = false ∧
    truthyOpt (_read_field_from_pyproject noManifestEnv "name") = false ∧
    _get_version_from_pyproject noManifestEnv true PkgLookup.raises = "0.2.2" ∧
    _get_project_name noManifestEnv true MetaObj.raises = "sglang-router" :=
  ⟨rfl, rfl,
    (all_strategies_fail_default noManifestEnv true rfl rfl).1,
    (all_strategies_fail_default noManifestEnv true rfl rfl).2.2⟩

/-- C5: fallback priority for the version field. When the manifest
strategy fails (yields nothing truthy) and the installed-package
metadata lookup returns a value, `get_version` returns that value, not
the default. -/
theorem installed_metadata_fallback (env : ManifestEnv) (s : String)
    (hv : truthyOpt (_read_field_from_pyproject env "version") = false) :
    _get_version_from_pyproject env true (PkgLookup.ok s) = s ∧
    get_version env true (PkgLookup.ok s) = s := by
  have h : _get_version_from_pyproject env true (PkgLookup.ok s) = s := by
    unfold _get_version_from_pyproject
    dsimp only
    rw [hv]
    simp [versionFallback]
  exact ⟨h, h⟩

/-- C5 witness: with the manifest missing and the installed-package
metadata reporting `"2.0.1"`, `get_version` returns `"2.0.1"`, which
differs from the default `"0.2.2"`. -/
theorem installed_metadata_fallback_witness :
    truthyOpt (_read_field_from_pyproject noManifestEnv "version") = false ∧
    get_version noManifestEnv true (PkgLookup.ok "2.0.1") = "2.0.1" ∧
    "2.0.1" ≠ "0.2.2" :=
  ⟨rfl, (installed_metadata_fallback noManifestEnv "2.0.1" rfl).2, by decide⟩

/-- C6: contract of the external-command strategies. For every subprocess
outcome, `_get_git_branch` and `_get_git_commit` return the captured
standard output with surrounding whitespace trimmed when the process
completes within the timeout with exit status zero, and `None` when the
exit status is nonzero or an exception (spawn error, timeout) occurs;
the four conjuncts cover every outcome of the `ProcBehavior` model. -/
theorem git_query_contract (d : Nat) (rc : Int) (out : String) :
    (d ≤ 5 → rc = 0 →
      _get_git_branch (ProcBehavior.runsFor d rc out) = some out.trim ∧
      _get_git_commit (ProcBehavior.runsFor d rc out) = some out.trim) ∧
    (rc ≠ 0 →
      _get_git_branch (ProcBehavior.runsFor d rc out) = none ∧
      _get_git_commit (ProcBehavior.runsFor d rc out) = none) ∧
    (5 < d →
      _get_git_branch (ProcBehavior.runsFor d rc out) = none ∧
      _get_git_commit (ProcBehavior.runsFor d rc out) = none) ∧
    _get_git_branch ProcBehavior.spawnError = none ∧
    _get_git_commit ProcBehavior.spawnError = none := by
  refine ⟨?_, ?_, ?_, rfl, rfl⟩
  · intro hd hrc
    have h5 : ¬ (5 < d) := by omega
    constructor <;>
      simp [_get_git_branch, _get_git_commit, runSubprocess,
        gitBranchCall, gitCommitCall, h5, hrc]
  · intro hrc
    by_cases h5 : 5 < d <;>
      constructor <;>
        simp [_get_git_branch, _get_git_commit, runSubprocess,
          gitBranchCall, gitCommitCall, h5, hrc]
  · intro h5
    constructor <;>
      simp [_get_git_branch, _get_git_commit, runSubprocess,
        gitBranchCall, gitCommitCall, h5]

/-- C7: every git strategy runs its subprocess with a hard timeout of 5
seconds, and a subprocess that outlives the timeout makes the strategy
fail (return `None`) instead of raising or blocking: the raised
`TimeoutExpired` is swallowed by the exception handler. -/
theorem git_timeout_bound (d : Nat) (rc : Int) (out : String)
    (hd : 5 < d) :
    gitBranchCall.timeoutSec = 5 ∧ gitCommitCall.timeoutSec = 5 ∧
    gitStatusCall.timeoutSec = 5 ∧
    _get_git_branch (ProcBehavior.runsFor d rc out) = none ∧
    _get_git_commit (ProcBehavior.runsFor d rc out) = none ∧
    _get_git_status (ProcBehavior.runsFor d rc out) = none := by
  refine ⟨rfl, rfl, rfl, ?_, ?_, ?_⟩ <;>
    simp [_get_git_branch, _get_git_commit, _get_git_status, runSubprocess,
      gitBranchCall, gitCommitCall, gitStatusCall, hd]

/-- C7 witness: a subprocess running for 10 seconds against the 5-second
timeout yields `None` from all three git strategies. -/
theorem git_timeout_bound_witness :
    (5 : Nat) < 10 ∧
    (gitBranchCall.timeoutSec = 5 ∧ gitCommitCall.timeoutSec = 5 ∧
      gitStatusCall.timeoutSec = 5 ∧
      _get_git_branch (ProcBehavior.runsFor 10 0 "main") = none ∧
      _get_git_commit (ProcBehavior.runsFor 10 0 "abc1234") = none ∧
      _get_git_status (ProcBehavior.runsFor 10 0 "") = none) :=
  ⟨by decide,
    (git_timeout_bound 10 0 "main" (by decide)).1,
    (git_timeout_bound 10 0 "abc1234" (by decide)).2.1,
    (git_timeout_bound 10 0 "" (by decide)).2.2.1,
    (git_timeout_bound 10 0 "main" (by decide)).2.2.2.1,
    (git_timeout_bound 10 0 "abc1234" (by decide)).2.2.2.2.1,
    (git_timeout_bound 10 0 "" (by decide)).2.2.2.2.2⟩

/-- C8: statelessness and determinism. `get_version` threads no resolver
state (it is a pure function of the external-source contents alone, and
delegates to `_get_version_from_pyproject`, re-running the chain), so any
two invocations against identical external-source contents return
identical results. -/
theorem resolver_stateless (env1 env2 : ManifestEnv) (ge1 ge2 : Bool)
    (pkg1 pkg2 : PkgLookup) (h1 : env1 = env2) (h2 : ge1 = ge2)
    (h3 : pkg1 = pkg2) :
    get_version env1 ge1 pkg1 = get_version env2 ge2 pkg2 ∧
    get_version env1 ge1 pkg1 = _get_version_from_pyproject env1 ge1 pkg1 := by
  subst h1 h2 h3
  exact ⟨rfl, rfl⟩

/-- C8 witness: two invocations against the same external contents give
the same result. -/
theorem resolver_stateless_witness :
    get_version noManifestEnv true PkgLookup.raises =
      get_version noManifestEnv true PkgLookup.raises ∧
    get_version noManifestEnv true PkgLookup.raises =
      _get_version_from_pyproject noManifestEnv true PkgLookup.raises :=
  resolver_stateless noManifestEnv noManifestEnv true true
    PkgLookup.raises PkgLookup.raises rfl rfl rfl

/-- C9: `_get_git_status` yields `some "dirty"` exactly on the cells
where the process exits 0 within the timeout with non-whitespace output,
`some "clean"` exactly on the cells where it exits 0 within the timeout
with all-whitespace output, and `none` on every other cell (spawn error,
timeout, nonzero exit) — the conjuncts cover every outcome of the
`ProcBehavior` model, so the characterization is exhaustive;
`get_version_string` renders the field as `_get_git_status() or
"unknown"`, so the rendered Git Status field is always one of `"dirty"`,
`"clean"`, `"unknown"`. -/
theorem git_status_range (d : Nat) (rc : Int) (out : String)
    (e : RuntimeEnv) :
    _get_git_status ProcBehavior.spawnError = none ∧
    (d ≤ 5 → rc = 0 → out.trim ≠ "" →
      _get_git_status (ProcBehavior.runsFor d rc out) = some "dirty") ∧
    (d ≤ 5 → rc = 0 → out.trim = "" →
      _get_git_status (ProcBehavior.runsFor d rc out) = some "clean") ∧
    (rc ≠ 0 → _get_git_status (ProcBehavior.runsFor d rc out) = none) ∧
    (5 < d → _get_git_status (ProcBehavior.runsFor d rc out) = none) ∧
    get_version_string e =
      get_version_string_with e (pyOr (_get_git_status e.statusProc) "unknown") ∧
    (pyOr (_get_git_status e.statusProc) "unknown" = "dirty" ∨
      pyOr (_get_git_status e.statusProc) "unknown" = "clean" ∨
      pyOr (_get_git_status e.statusProc) "unknown" = "unknown") := by
  refine ⟨rfl, ?_, ?_, ?_, ?_, rfl, ?_⟩
  · intro hd hrc ht
    have h5 : ¬ (5 < d) := by omega
    simp [_get_git_status, runSubprocess, gitStatusCall, h5, hrc,
      String.isEmpty_iff, ht]
  · intro hd hrc ht
    have h5 : ¬ (5 < d) := by omega
    simp [_get_git_status, runSubprocess, gitStatusCall, h5, hrc,
      String.isEmpty_iff, ht]
  · intro hrc
    by_cases h5 : 5 < d <;>
      simp [_get_git_status, runSubprocess, gitStatusCall, h5, hrc]
  · intro h5
    simp [_get_git_status, runSubprocess, gitStatusCall, h5]
  · cases hb : e.statusProc with
    | spawnError =>
      refine Or.inr (Or.inr ?_)
      simp [_get_git_status, runSubprocess, pyOr]
    | runsFor d2 rc2 out2 =>
      by_cases h5 : 5 < d2
      · refine Or.inr (Or.inr ?_)
        simp [_get_git_status, runSubprocess, gitStatusCall, h5, pyOr]
      · by_cases hrc : rc2 = 0
        · by_cases he : out2.trim.isEmpty
          · refine Or.inr (Or.inl ?_)
            simp [_get_git_status, runSubprocess, gitStatusCall, h5, hrc,
              he, pyOr]
            rfl
          · refine Or.inl ?_
            simp [_get_git_status, runSubprocess, gitStatusCall, h5, hrc,
              he, pyOr]
            rfl
        · refine Or.inr (Or.inr ?_)
          simp [_get_git_status, runSubprocess, gitStatusCall, h5, hrc, pyOr]

/-- C10: contract of `_read_field_from_pyproject`. It returns `None`
(raising nothing — the function is total into `Option String`) whenever
the manifest file does not exist, no TOML parser is importable, parsing
raises, the project table is absent, or the field is absent; and whenever
the field is present in the project table it returns `str(value)` — a
non-string TOML value is coerced by `pyStr` rather than returned raw or
rejected. -/
theorem read_field_contract (env : ManifestEnv) (field : String)
    (data proj : List (String × TomlValue)) (v : TomlValue) :
    (env.pyprojectExists = false → _read_field_from_pyproject env field = none) ∧
    (env.parser = ParserChoice.unavailable →
      _read_field_from_pyproject env field = none) ∧
    (env.parseResult = Except.error () →
      _read_field_from_pyproject env field = none) ∧
    (env.parseResult = Except.ok data → data.lookup "project" = none →
      _read_field_from_pyproject env field = none) ∧
    (env.parseResult = Except.ok data →
      data.lookup "project" = some (TomlValue.table proj) →
      proj.lookup field = none →
      _read_field_from_pyproject env field = none) ∧
    (env.pyprojectExists = true → env.parser ≠ ParserChoice.unavailable →
      env.parseResult = Except.ok data →
      data.lookup "project" = some (TomlValue.table proj) →
      proj.lookup field = some v →
      _read_field_from_pyproject env field = some (pyStr v)) := by
  refine ⟨?_, ?_, ?_, ?_, ?_, ?_⟩
  · intro h
    simp [_read_field_from_pyproject, h]
  · intro h
    cases hE : env.pyprojectExists <;>
      simp [_read_field_from_pyproject, hE, h]
  · intro h
    cases hE : env.pyprojectExists <;> cases hP : env.parser <;>
      simp [_read_field_from_pyproject, hE, hP, h]
  · intro h hlk
    cases hE : env.pyprojectExists <;> cases hP : env.parser <;>
      simp [_read_field_from_pyproject, projectFieldLookup, hE, hP, h, hlk]
  · intro h hlk hf
    cases hE : env.pyprojectExists <;> cases hP : env.parser <;>
      simp [_read_field_from_pyproject, projectFieldLookup, hE, hP, h, hlk, hf]
  · intro hE hP h hlk hf
    cases hP2 : env.parser <;>
      simp_all [_read_field_from_pyproject, projectFieldLookup, hE, h, hlk, hf]

end SglangVersion
